import Mathlib

/-!
Shallow embedding of the financial-core modules of the
`conta-azul-dashboard` repository, with theorems settling the frozen
claims about its specification.

Embedded modules:
* `dashboard/services/reconciliation_service.py` (`reconcile` and helpers)
* `dashboard/services/cashflow_service.py`
  (`_classify_aging_bucket`, `build_cash_projection`)
* `dashboard/services/metrics_service.py`
  (`calculate_burn_rate`, `calculate_runway`)
* `dashboard/models/inter_models.py` (`ReconciliationResult.taxa_conciliacao`)

Modelling conventions:
* Monetary amounts (Python `float`) are modelled as `Rat`; every claim at
  stake concerns comparisons, sums and divisions that are exact in the
  source's intent, none hinges on binary floating-point rounding.
* Calendar dates are modelled as `Int` day numbers (the difference of two
  Python `date`s in days is the difference of the day numbers); calendar
  months are modelled as `Int` month indices (stepping `%Y-%m` back by one
  month is modelled as subtracting 1).
* A Python dict field that may be absent, or present but unusable, is an
  `Option`; where the source distinguishes "key absent" (fall through to
  another key) from "key present but falsy" (stop), two `Option` levels
  are used.
* `date.today()` is passed explicitly as a parameter (`today`, `m0`).
-/

-- Batteries marks the `Rat` field operations `@[irreducible]`; make them
-- unfold again in this file so that concrete runs of the embedded code
-- can be checked by `decide`.
unseal Rat.sub Rat.add Rat.mul Rat.inv

/-- Python `abs` on a rational value, written so that the kernel can
evaluate it (Mathlib's lattice-derived `|·|` does not reduce). -/
def ratAbs (x : Rat) : Rat := if x < 0 then -x else x

/-- Python `abs` on an integer (day difference). -/
def intAbs (x : Int) : Int := if x < 0 then -x else x

/-- Python `str.upper`, restricted to what the source compares
(ASCII status strings). -/
def upperString (s : String) : String := String.mk (s.data.map Char.toUpper)

/- ────────────────────────────────────────────────────────────────
   dashboard/models/inter_models.py
   ──────────────────────────────────────────────────────────────── -/

/-- `InterTransaction` from `inter_models.py`: a bank-statement entry.
`data` is the transaction date (day number), `tipo` is `"CREDITO"` or
`"DEBITO"`, `valor` the (non-negative) amount. -/
structure InterTransaction where
  data : Int
  tipo : String
  descricao : String
  valor : Rat
deriving DecidableEq, Repr

/-- `ReconciliationItem` from `inter_models.py`. -/
structure ReconciliationItem where
  banco_data : Option Int := none
  banco_descricao : String := ""
  banco_valor : Rat := 0
  banco_tipo : String := ""
  erp_descricao : String := ""
  erp_valor : Rat := 0
  erp_data_vencimento : Option Int := none
  erp_status : String := ""
  erp_id : String := ""
  status : String := ""
deriving DecidableEq, Repr

/-- `ReconciliationResult` from `inter_models.py`. -/
structure ReconciliationResult where
  items : List ReconciliationItem := []
  total_transacoes_banco : Nat := 0
  total_itens_erp : Nat := 0
  conciliados : Nat := 0
  so_banco : Nat := 0
  so_erp : Nat := 0
  valor_conciliado : Rat := 0
  valor_so_banco : Rat := 0
  valor_so_erp : Rat := 0
deriving DecidableEq, Repr

/-- Property `ReconciliationResult.taxa_conciliacao`: percentage of bank
transactions reconciled; defined as 100 when there are no bank
transactions. -/
def taxa_conciliacao (r : ReconciliationResult) : Rat :=
  if r.total_transacoes_banco = 0 then 100
  else ((r.conciliados : Rat) / (r.total_transacoes_banco : Rat)) * 100

/- ────────────────────────────────────────────────────────────────
   dashboard/services/reconciliation_service.py
   ──────────────────────────────────────────────────────────────── -/

/-- A Conta Azul receivable/payable record (a Python `dict`), restricted
to the keys read by `reconciliation_service.py`.  Each date field is the
parsed day number when the field is present and parseable, `none`
otherwise (absent, empty, or unparsable all make `_paid_date` fall
through to the next field in the source). -/
structure ErpItem where
  id : Option String := none
  status : Option String := none
  pago : Option Rat := none
  total : Option Rat := none
  data_pagamento : Option Int := none
  data_competencia : Option Int := none
  data_vencimento : Option Int := none
  descricao : Option String := none
  observacao : Option String := none
  pessoa_nome : String := ""
deriving DecidableEq, Repr

/-- `_paid_date`: first resolvable date among `data_pagamento`,
`data_competencia`, `data_vencimento`. -/
def paidDate (item : ErpItem) : Option Int :=
  match item.data_pagamento with
  | some d => some d
  | none =>
    match item.data_competencia with
    | some d => some d
    | none => item.data_vencimento

/-- `_paid_amount`: `float(item.get("pago", item.get("total", 0)) or 0)`. -/
def paidAmount (item : ErpItem) : Rat :=
  (item.pago.getD (item.total.getD 0))

/-- `_is_paid`: `(item.get("status") or "").upper() == "PAID"`. -/
def isPaid (item : ErpItem) : Bool :=
  upperString (item.status.getD "") == "PAID"

/-- `_item_description`: `descricao or observacao or pessoa.nome or
"Sem descrição"` (Python `or` skips `None` and empty strings). -/
def itemDescription (item : ErpItem) : String :=
  match item.descricao with
  | some s => if s = "" then itemDescriptionFallback item else s
  | none => itemDescriptionFallback item
where
  itemDescriptionFallback (item : ErpItem) : String :=
    match item.observacao with
    | some s =>
      if s = "" then (if item.pessoa_nome = "" then "Sem descrição" else item.pessoa_nome)
      else s
    | none => if item.pessoa_nome = "" then "Sem descrição" else item.pessoa_nome

/-- `item.get("id", str(i))`: the ERP id with positional fallback, where
`i` is the item's index in the (filtered) candidate list. -/
def itemId (i : Nat) (item : ErpItem) : String :=
  item.id.getD (toString i)

/-- The inner candidate scan of `reconcile` (lines 103–139): walk the
enumerated candidate list in order, skip consumed ids, skip candidates
failing the value tolerance, skip candidates with a resolvable date
outside the date window, return the first match. -/
def findMatch (txdata : Int) (txvalor : Rat) (tolerance_days : Int)
    (value_tolerance : Rat) (matched : List String) :
    List (Nat × ErpItem) → Option (Nat × ErpItem)
  | [] => none
  | (i, item) :: rest =>
    if itemId i item ∈ matched then
      findMatch txdata txvalor tolerance_days value_tolerance matched rest
    else if value_tolerance < ratAbs (paidAmount item - txvalor) then
      findMatch txdata txvalor tolerance_days value_tolerance matched rest
    else
      match paidDate item with
      | some d =>
        if tolerance_days < intAbs (txdata - d) then
          findMatch txdata txvalor tolerance_days value_tolerance matched rest
        else some (i, item)
      | none => some (i, item)

/-- Mutable state of the transaction loop of `reconcile`. -/
structure RecState where
  matched_recv : List String := []
  matched_pay : List String := []
  items : List ReconciliationItem := []
  conciliados : Nat := 0
  so_banco : Nat := 0
  valor_conciliado : Rat := 0
  valor_so_banco : Rat := 0
deriving Repr

/-- The CONCILIADO item appended on a match (lines 125–136). -/
def mkConciliado (tx : InterTransaction) (i : Nat) (item : ErpItem) :
    ReconciliationItem :=
  { banco_data := some tx.data
    banco_descricao := tx.descricao
    banco_valor := tx.valor
    banco_tipo := tx.tipo
    erp_descricao := itemDescription item
    erp_valor := paidAmount item
    erp_data_vencimento := paidDate item
    erp_status := "PAID"
    erp_id := itemId i item
    status := "CONCILIADO" }

/-- The SO_BANCO item appended when no match is found (lines 142–148). -/
def mkSoBanco (tx : InterTransaction) : ReconciliationItem :=
  { banco_data := some tx.data
    banco_descricao := tx.descricao
    banco_valor := tx.valor
    banco_tipo := tx.tipo
    status := "SO_BANCO" }

/-- One iteration of the `for tx in transactions` loop of `reconcile`
(lines 91–150): select the candidate pool by `tipo`, scan for the first
match, and either consume it and emit a CONCILIADO item, or emit a
SO_BANCO item. -/
def processTx (recvE payE : List (Nat × ErpItem)) (tolerance_days : Int)
    (value_tolerance : Rat) (s : RecState) (tx : InterTransaction) : RecState :=
  if tx.tipo = "CREDITO" then
    match findMatch tx.data tx.valor tolerance_days value_tolerance s.matched_recv recvE with
    | some (i, item) =>
      { s with
        matched_recv := itemId i item :: s.matched_recv
        items := s.items ++ [mkConciliado tx i item]
        conciliados := s.conciliados + 1
        valor_conciliado := s.valor_conciliado + tx.valor }
    | none =>
      { s with
        items := s.items ++ [mkSoBanco tx]
        so_banco := s.so_banco + 1
        valor_so_banco := s.valor_so_banco + tx.valor }
  else
    match findMatch tx.data tx.valor tolerance_days value_tolerance s.matched_pay payE with
    | some (i, item) =>
      { s with
        matched_pay := itemId i item :: s.matched_pay
        items := s.items ++ [mkConciliado tx i item]
        conciliados := s.conciliados + 1
        valor_conciliado := s.valor_conciliado + tx.valor }
    | none =>
      { s with
        items := s.items ++ [mkSoBanco tx]
        so_banco := s.so_banco + 1
        valor_so_banco := s.valor_so_banco + tx.valor }

/-- The whole transaction loop of `reconcile` (phase 1). -/
def phase1 (transactions : List InterTransaction)
    (recvE payE : List (Nat × ErpItem)) (tolerance_days : Int)
    (value_tolerance : Rat) : RecState :=
  transactions.foldl (processTx recvE payE tolerance_days value_tolerance) {}

/-- `min(tx.data for tx in transactions)`; 0 on the empty list (the
source only evaluates it on non-empty lists). -/
def minTxDate : List InterTransaction → Int
  | [] => 0
  | t :: ts => ts.foldl (fun m x => min m x.data) t.data

/-- `max(tx.data for tx in transactions)`; 0 on the empty list. -/
def maxTxDate : List InterTransaction → Int
  | [] => 0
  | t :: ts => ts.foldl (fun m x => max m x.data) t.data

/-- The SO_ERP item appended in phase 2 (lines 175–182). -/
def mkSoErp (i : Nat) (item : ErpItem) : ReconciliationItem :=
  { erp_descricao := itemDescription item
    erp_valor := paidAmount item
    erp_data_vencimento := paidDate item
    erp_status := "PAID"
    erp_id := itemId i item
    status := "SO_ERP" }

/-- The period filter of phase 2 (lines 168–173): skip an unmatched ERP
item when the transaction list is non-empty, its date is resolvable, and
that date falls outside `[min tx date − tolerance, max tx date + tolerance]`. -/
def soErpSkip (transactions : List InterTransaction) (tolerance_days : Int)
    (item : ErpItem) : Bool :=
  if transactions.isEmpty then false
  else
    match paidDate item with
    | some d =>
      decide (d < minTxDate transactions - tolerance_days) ||
      decide (maxTxDate transactions + tolerance_days < d)
    | none => false

/-- Phase 2 of `reconcile` (lines 156–184) over one candidate side:
emit a SO_ERP item for every candidate that was not consumed and
survives the period filter. -/
def soErpItems (transactions : List InterTransaction) (tolerance_days : Int)
    (matched : List String) : List (Nat × ErpItem) → List ReconciliationItem
  | [] => []
  | (i, item) :: rest =>
    if itemId i item ∈ matched then
      soErpItems transactions tolerance_days matched rest
    else if soErpSkip transactions tolerance_days item then
      soErpItems transactions tolerance_days matched rest
    else
      mkSoErp i item :: soErpItems transactions tolerance_days matched rest

/-- `reconcile` from `reconciliation_service.py`: filter PAID items,
run the greedy first-match transaction loop, then emit SO_ERP items for
leftover ERP records inside the statement period. -/
def reconcile (transactions : List InterTransaction)
    (receivables payables : List ErpItem)
    (tolerance_days : Int) (value_tolerance : Rat) : ReconciliationResult :=
  let paid_receivables := receivables.filter isPaid
  let paid_payables := payables.filter isPaid
  let s := phase1 transactions paid_receivables.enum paid_payables.enum
    tolerance_days value_tolerance
  let recvErp := soErpItems transactions tolerance_days s.matched_recv
    paid_receivables.enum
  let payErp := soErpItems transactions tolerance_days s.matched_pay
    paid_payables.enum
  { items := s.items ++ recvErp ++ payErp
    total_transacoes_banco := transactions.length
    total_itens_erp := paid_receivables.length + paid_payables.length
    conciliados := s.conciliados
    so_banco := s.so_banco
    so_erp := recvErp.length + payErp.length
    valor_conciliado := s.valor_conciliado
    valor_so_banco := s.valor_so_banco
    valor_so_erp := ((recvErp ++ payErp).map (·.erp_valor)).sum }

/- ────────────────────────────────────────────────────────────────
   dashboard/services/cashflow_service.py
   ──────────────────────────────────────────────────────────────── -/

/-- `_classify_aging_bucket` from `cashflow_service.py`.  `due_date` is
`none` when the due-date string is missing, empty, or unparsable
(the source returns "Vencido" in all those cases); otherwise it is the
parsed day number.  `ref` is the reference date (`ref_date or
date.today()` in the source). -/
def classify_aging_bucket (due_date : Option Int) (ref : Int) : String :=
  match due_date with
  | none => "Vencido"
  | some dt =>
    let diff := dt - ref
    if diff < 0 then "Vencido"
    else if diff ≤ 30 then "0-30d"
    else if diff ≤ 60 then "31-60d"
    else "60+d"

/-- A Conta Azul record as read by `build_cash_projection`:
`status`, `nao_pago`/`total` and `data_vencimento` (the latter `none`
when missing, empty, or unparsable — the source skips the record in all
three cases). -/
structure CashItem where
  status : Option String := none
  nao_pago : Option Rat := none
  total : Option Rat := none
  data_vencimento : Option Int := none
deriving DecidableEq, Repr

/-- `_is_open`: status not in `{PAID, CANCELLED, CANCELED}`. -/
def isOpen (item : CashItem) : Bool :=
  let st := upperString (item.status.getD "")
  !(st == "PAID" || st == "CANCELLED" || st == "CANCELED")

/-- `_unpaid_amount`: `float(item.get("nao_pago", item.get("total", 0)) or 0)`. -/
def unpaidAmount (item : CashItem) : Rat :=
  item.nao_pago.getD (item.total.getD 0)

/-- The accumulator-building loops of `build_cash_projection` (lines
88–124), collapsed to the daily total they produce: an open record with
positive unpaid amount and resolvable due date contributes on its due
date, or on `today` when overdue. -/
def dailyFlow (today : Int) (items : List CashItem) (d : Int) : Rat :=
  items.foldl
    (fun acc item =>
      if isOpen item then
        let amount := unpaidAmount item
        if amount ≤ 0 then acc
        else
          match item.data_vencimento with
          | none => acc
          | some due =>
            if (if due < today then today else due) = d then acc + amount
            else acc
      else acc) 0

/-- `CashProjection` from `financial_models.py` (the `daily` DataFrame
becomes the list of `(date, balance)` rows). -/
structure CashProjection where
  daily : List (Int × Rat) := []
  min_balance : Rat := 0
  min_balance_date : Int := 0
  days_until_negative : Option Nat := none
  balance_30d : Rat := 0
  balance_60d : Rat := 0
deriving DecidableEq, Repr

/-- Loop state of the `for i in range(days + 1)` simulation. -/
structure ProjState where
  balance : Rat
  min_balance : Rat
  min_balance_date : Int
  days_until_negative : Option Nat
  balance_30d : Rat
  balance_60d : Rat
  rows : List (Int × Rat)
deriving Repr

/-- One iteration of the simulation loop of `build_cash_projection`
(lines 135–152). -/
def projStep (inflow outflow : Int → Rat) (today : Int)
    (s : ProjState) (i : Nat) : ProjState :=
  let d := today + (i : Int)
  let balance := s.balance + inflow d - outflow d
  { balance := balance
    min_balance := if balance < s.min_balance then balance else s.min_balance
    min_balance_date := if balance < s.min_balance then d else s.min_balance_date
    days_until_negative :=
      if balance < 0 ∧ s.days_until_negative = none then some i
      else s.days_until_negative
    balance_30d := if i = 30 then balance else s.balance_30d
    balance_60d := if i = 60 then balance else s.balance_60d
    rows := s.rows ++ [(d, balance)] }

/-- The initial loop state of `build_cash_projection` (lines 127–133):
everything starts from `current_cash` and today's date. -/
def projInit (current_cash : Rat) (today : Int) : ProjState :=
  { balance := current_cash
    min_balance := current_cash
    min_balance_date := today
    days_until_negative := none
    balance_30d := current_cash
    balance_60d := current_cash
    rows := [] }

/-- `build_cash_projection` from `cashflow_service.py`.  `today` stands
for `date.today()`. -/
def build_cash_projection (current_cash : Rat)
    (receivables payables : List CashItem) (days : Nat) (today : Int) :
    CashProjection :=
  let inflow := dailyFlow today receivables
  let outflow := dailyFlow today payables
  let final := (List.range (days + 1)).foldl (projStep inflow outflow today)
    (projInit current_cash today)
  { daily := final.rows
    min_balance := final.min_balance
    min_balance_date := final.min_balance_date
    days_until_negative := final.days_until_negative
    balance_30d := final.balance_30d
    balance_60d := final.balance_60d }

/-- The closed-form running balance: `current_cash` plus all inflows
minus all outflows of the first `n` simulated days (day indices
`0 … n−1`).  `balanceAfter … (i+1)` is the balance the simulation holds
at the end of day index `i`. -/
def balanceAfter (current_cash : Rat) (inflow outflow : Int → Rat)
    (today : Int) (n : Nat) : Rat :=
  current_cash +
    ((List.range n).map (fun j => inflow (today + (j : Int)) - outflow (today + (j : Int)))).sum

/- ────────────────────────────────────────────────────────────────
   dashboard/services/metrics_service.py
   ──────────────────────────────────────────────────────────────── -/

/-- A payable as read by `calculate_burn_rate`.  Calendar months are
modelled as `Int` month indices.  Each date field is `none` when the
key is absent, `some none` when the key is present but its value is
falsy (the source then stops without falling back), and `some (some m)`
when it yields month `m`. -/
structure BurnItem where
  pago : Option Rat := none
  data_competencia : Option (Option Int) := none
  data_vencimento : Option (Option Int) := none
deriving DecidableEq, Repr

/-- `item.get("data_competencia", item.get("data_vencimento", ""))`
followed by `if not dt_str: continue` and `mk = dt_str[:7]`. -/
def burnMonth (item : BurnItem) : Option Int :=
  match item.data_competencia with
  | some v => v
  | none =>
    match item.data_vencimento with
    | some v => v
    | none => none

/-- Total paid amount recorded in month `mk` (the `monthly_expenses`
accumulation of lines 45–56, evaluated at one in-window key). -/
def monthlyTotal (payables : List BurnItem) (mk : Int) : Rat :=
  payables.foldl
    (fun acc item =>
      let pago := item.pago.getD 0
      if pago ≤ 0 then acc
      else
        match burnMonth item with
        | some m => if m = mk then acc + pago else acc
        | none => acc) 0

/-- The trailing window of month keys `[m0, m0−1, …, m0−(months−1)]`
(`m0` is the month of `date.today()`). -/
def monthKeys (months : Nat) (m0 : Int) : List Int :=
  (List.range months).map (fun k => m0 - (k : Int))

/-- `BurnRate` from `financial_models.py` (the presentation-only
`monthly_breakdown` field is not modelled). -/
structure BurnRate where
  monthly_average : Rat := 0
  months_used : Nat := 0
deriving DecidableEq, Repr

/-- The `active_months` selection of `calculate_burn_rate` (lines
58–69): months of the window with non-zero spend other than the current
month; when that list is empty, fall back to all window months with
non-zero spend (including the current one). -/
def activeMonthsList (payables : List BurnItem) (months : Nat) (m0 : Int) :
    List (Int × Rat) :=
  let expenses := (monthKeys months m0).map (fun mk => (mk, monthlyTotal payables mk))
  let active := expenses.filter (fun p => decide (0 < p.2) && decide (p.1 ≠ m0))
  if active.isEmpty then expenses.filter (fun p => decide (0 < p.2)) else active

/-- `calculate_burn_rate` from `metrics_service.py` (lines 25–84):
`total / max(count, 1)` over the active months. -/
def calculate_burn_rate (payables : List BurnItem) (months : Nat)
    (m0 : Int) : BurnRate :=
  let active2 := activeMonthsList payables months m0
  let total := (active2.map (·.2)).sum
  let count := max active2.length 1
  { monthly_average := total / (count : Rat), months_used := count }

/-- Claim-side list for C7: the window months, other than the current
one, with non-zero recorded spend. -/
def activePastMonths (payables : List BurnItem) (months : Nat) (m0 : Int) :
    List Int :=
  (monthKeys months m0).filter
    (fun mk => decide (0 < monthlyTotal payables mk) && decide (mk ≠ m0))

/-- Claim-side list for C7: all window months with non-zero recorded
spend, the current one included. -/
def activeAllMonths (payables : List BurnItem) (months : Nat) (m0 : Int) :
    List Int :=
  (monthKeys months m0).filter (fun mk => decide (0 < monthlyTotal payables mk))

/-- `Runway` from `financial_models.py`; `months = none` models the
Python `float("inf")` returned for non-positive burn rates. -/
structure Runway where
  months : Option Rat
  is_infinite : Bool
deriving DecidableEq, Repr

/-- `calculate_runway` from `metrics_service.py`. -/
def calculate_runway (cash burn_rate : Rat) : Runway :=
  if burn_rate ≤ 0 then { months := none, is_infinite := true }
  else { months := some (max (cash / burn_rate) 0), is_infinite := false }

/- ────────────────────────────────────────────────────────────────
   Claim-side auxiliary definitions
   ──────────────────────────────────────────────────────────────── -/

/-- The emission condition of claim C4, written as the claim states it:
an enumerated paid obligation produces a SO_ERP item exactly when it
was not consumed AND (the transaction list is empty, OR its payment
date is unresolvable, OR that date lies within
`[min tx date − tolerance, max tx date + tolerance]`). -/
def soErpEmit (ts : List InterTransaction) (told : Int)
    (matched : List String) (p : Nat × ErpItem) : Bool :=
  decide (itemId p.1 p.2 ∉ matched) &&
    (decide (ts = []) ||
      (match paidDate p.2 with
       | none => true
       | some d =>
         decide (minTxDate ts - told ≤ d) && decide (d ≤ maxTxDate ts + told)))

/-- ERP ids recorded by CONCILIADO items on the receivable (CREDITO)
side. -/
def credIds (items : List ReconciliationItem) : List String :=
  (items.filter
    (fun it => it.status == "CONCILIADO" && it.banco_tipo == "CREDITO")).map
    (·.erp_id)

/-- ERP ids recorded by CONCILIADO items on the payable (non-CREDITO)
side. -/
def payIds (items : List ReconciliationItem) : List String :=
  (items.filter
    (fun it => it.status == "CONCILIADO" && !(it.banco_tipo == "CREDITO"))).map
    (·.erp_id)

/-- The consumption invariant of the transaction loop: matched ids on
each side are distinct and all recorded in the corresponding
`matched_*` set. -/
def RecInv (s : RecState) : Prop :=
  (credIds s.items).Nodup ∧ (∀ x ∈ credIds s.items, x ∈ s.matched_recv)
  ∧ (payIds s.items).Nodup ∧ (∀ x ∈ payIds s.items, x ∈ s.matched_pay)

/-- A reconciliation item accounted to a bank transaction. -/
def isBankItem (it : ReconciliationItem) : Bool :=
  it.status == "CONCILIADO" || it.status == "SO_BANCO"

/- ────────────────────────────────────────────────────────────────
   Basic facts about the modelling helpers
   ──────────────────────────────────────────────────────────────── -/

theorem ratAbs_eq_abs (x : Rat) : ratAbs x = |x| := by
  unfold ratAbs
  rcases lt_or_le x 0 with h | h
  · rw [if_pos h, abs_of_neg h]
  · rw [if_neg (not_lt.mpr h), abs_of_nonneg h]

theorem intAbs_eq_abs (x : Int) : intAbs x = |x| := by
  unfold intAbs
  rcases lt_or_le x 0 with h | h
  · rw [if_pos h, abs_of_neg h]
  · rw [if_neg (not_lt.mpr h), abs_of_nonneg h]

/- ────────────────────────────────────────────────────────────────
   Claim C4: which leftover ERP items become SO_ERP
   ──────────────────────────────────────────────────────────────── -/

theorem soErpEmit_eq_not_skip (ts : List InterTransaction) (told : Int)
    (matched : List String) (i : Nat) (item : ErpItem)
    (hmem : itemId i item ∉ matched) :
    soErpEmit ts told matched (i, item) = !soErpSkip ts told item := by
  simp only [soErpEmit, soErpSkip]
  cases ts with
  | nil =>
    cases hpd : paidDate item
    all_goals simp [hmem]
  | cons t ts2 =>
    cases hpd : paidDate item with
    | none => simp [hmem, hpd]
    | some d =>
      simp only [hmem, decide_not, hpd, List.isEmpty_cons, Bool.false_eq_true,
        if_false, decide_eq_true_eq, not_false_eq_true, decide_True,
        Bool.true_and, List.cons_ne_nil, decide_False, Bool.false_or,
        Bool.not_or]
      by_cases h1 : minTxDate (t :: ts2) - told ≤ d
      · by_cases h2 : d ≤ maxTxDate (t :: ts2) + told
        · simp [h1, h2]
        · simp [h1, h2]
          omega
      · simp [h1]

theorem soErpItems_eq_filter (ts : List InterTransaction) (told : Int)
    (matched : List String) (cs : List (Nat × ErpItem)) :
    soErpItems ts told matched cs
      = (cs.filter (soErpEmit ts told matched)).map (fun p => mkSoErp p.1 p.2) := by
  induction cs with
  | nil => simp [soErpItems]
  | cons hd rest ih =>
    obtain ⟨i, item⟩ := hd
    unfold soErpItems
    by_cases hmem : itemId i item ∈ matched
    · rw [if_pos hmem]
      have hemit : soErpEmit ts told matched (i, item) = false := by
        simp [soErpEmit, hmem]
      rw [List.filter_cons, hemit]
      simpa using ih
    · rw [if_neg hmem]
      by_cases hskip : soErpSkip ts told item
      · rw [if_pos hskip]
        have hemit : soErpEmit ts told matched (i, item) = false := by
          rw [soErpEmit_eq_not_skip ts told matched i item hmem, hskip]
          rfl
        rw [List.filter_cons, hemit]
        simpa using ih
      · rw [if_neg hskip]
        have hemit : soErpEmit ts told matched (i, item) = true := by
          rw [soErpEmit_eq_not_skip ts told matched i item hmem,
            Bool.eq_false_iff.mpr hskip]
          rfl
        rw [List.filter_cons, hemit]
        simpa using ih

theorem processTx_no_so_erp (recvE payE : List (Nat × ErpItem)) (told : Int)
    (tolv : Rat) (s : RecState) (tx : InterTransaction) :
    (processTx recvE payE told tolv s tx).items.filter
        (fun it => it.status == "SO_ERP")
      = s.items.filter (fun it => it.status == "SO_ERP") := by
  unfold processTx
  split <;> (split <;> simp [List.filter_append, mkConciliado, mkSoBanco])

theorem phase1_no_so_erp (ts : List InterTransaction)
    (recvE payE : List (Nat × ErpItem)) (told : Int) (tolv : Rat) :
    ∀ s : RecState,
      (ts.foldl (processTx recvE payE told tolv) s).items.filter
          (fun it => it.status == "SO_ERP")
        = s.items.filter (fun it => it.status == "SO_ERP") := by
  induction ts with
  | nil => intro s; simp
  | cons tx rest ih =>
    intro s
    simp only [List.foldl_cons]
    rw [ih, processTx_no_so_erp]

theorem soErpItems_filter_self (ts : List InterTransaction) (told : Int)
    (matched : List String) (cs : List (Nat × ErpItem)) :
    (soErpItems ts told matched cs).filter (fun it => it.status == "SO_ERP")
      = soErpItems ts told matched cs := by
  induction cs with
  | nil => simp [soErpItems]
  | cons hd rest ih =>
    obtain ⟨i, item⟩ := hd
    unfold soErpItems
    split
    · exact ih
    · split
      · exact ih
      · simp [List.filter_cons, mkSoErp, ih]

/-- Claim C4: for every input to `reconcile`, the SO_ERP items are
exactly those unconsumed paid obligations (per side, in order) whose
emission condition holds: the transaction list is empty, or the payment
date is unresolvable, or it lies in
`[min tx date − tolerance, max tx date + tolerance]`; every other
leftover obligation is omitted from the result entirely. -/
theorem reconcile_so_erp_characterization (ts : List InterTransaction)
    (receivables payables : List ErpItem) (told : Int) (tolv : Rat) :
    (reconcile ts receivables payables told tolv).items.filter
        (fun it => it.status == "SO_ERP")
      = (((receivables.filter isPaid).enum.filter
            (soErpEmit ts told
              (phase1 ts (receivables.filter isPaid).enum
                (payables.filter isPaid).enum told tolv).matched_recv)).map
          (fun p => mkSoErp p.1 p.2))
        ++ (((payables.filter isPaid).enum.filter
            (soErpEmit ts told
              (phase1 ts (receivables.filter isPaid).enum
                (payables.filter isPaid).enum told tolv).matched_pay)).map
          (fun p => mkSoErp p.1 p.2)) := by
  unfold reconcile
  simp only [List.filter_append]
  rw [soErpItems_filter_self, soErpItems_filter_self]
  have h0 := phase1_no_so_erp ts (receivables.filter isPaid).enum
    (payables.filter isPaid).enum told tolv {}
  unfold phase1
  rw [h0]
  rw [soErpItems_eq_filter, soErpItems_eq_filter]
  simp [phase1]

/- ────────────────────────────────────────────────────────────────
   Claim C2: obligations are consumed at most once
   ──────────────────────────────────────────────────────────────── -/

theorem credIds_append (l1 l2 : List ReconciliationItem) :
    credIds (l1 ++ l2) = credIds l1 ++ credIds l2 := by
  simp [credIds, List.filter_append]

theorem payIds_append (l1 l2 : List ReconciliationItem) :
    payIds (l1 ++ l2) = payIds l1 ++ payIds l2 := by
  simp [payIds, List.filter_append]

/-- `findMatch` never returns a candidate whose id is already
consumed. -/
theorem findMatch_not_mem (d : Int) (v : Rat) (told : Int) (tolv : Rat)
    (m : List String) (cs : List (Nat × ErpItem)) (r : Nat × ErpItem)
    (h : findMatch d v told tolv m cs = some r) : itemId r.1 r.2 ∉ m := by
  induction cs with
  | nil => simp [findMatch] at h
  | cons hd rest ih =>
    obtain ⟨j, it⟩ := hd
    unfold findMatch at h
    split at h
    · exact ih h
    next hmem =>
      split at h
      · exact ih h
      · split at h
        · split at h
          · exact ih h
          · have hr := Option.some.inj h
            subst hr
            exact hmem
        · have hr := Option.some.inj h
          subst hr
          exact hmem

theorem processTx_inv (recvE payE : List (Nat × ErpItem)) (told : Int)
    (tolv : Rat) (s : RecState) (tx : InterTransaction) (h : RecInv s) :
    RecInv (processTx recvE payE told tolv s tx) := by
  obtain ⟨hcn, hcs, hpn, hps⟩ := h
  unfold processTx
  split
  next htipo =>
    cases hm : findMatch tx.data tx.valor told tolv s.matched_recv recvE with
    | none =>
      simp only [hm]
      have hc : credIds (s.items ++ [mkSoBanco tx]) = credIds s.items := by
        simp [credIds_append, credIds, mkSoBanco]
      have hp : payIds (s.items ++ [mkSoBanco tx]) = payIds s.items := by
        simp [payIds_append, payIds, mkSoBanco]
      refine ⟨?_, ?_, ?_, ?_⟩
      · show (credIds (s.items ++ [mkSoBanco tx])).Nodup
        rw [hc]; exact hcn
      · show ∀ x ∈ credIds (s.items ++ [mkSoBanco tx]), x ∈ s.matched_recv
        rw [hc]; exact hcs
      · show (payIds (s.items ++ [mkSoBanco tx])).Nodup
        rw [hp]; exact hpn
      · show ∀ x ∈ payIds (s.items ++ [mkSoBanco tx]), x ∈ s.matched_pay
        rw [hp]; exact hps
    | some r =>
      obtain ⟨i, item⟩ := r
      have hnot := findMatch_not_mem tx.data tx.valor told tolv
        s.matched_recv recvE (i, item) hm
      simp only [hm]
      have hcred : credIds (s.items ++ [mkConciliado tx i item])
          = credIds s.items ++ [itemId i item] := by
        simp [credIds_append, credIds, mkConciliado, htipo]
      have hpay : payIds (s.items ++ [mkConciliado tx i item])
          = payIds s.items := by
        simp [payIds_append, payIds, mkConciliado, htipo]
      refine ⟨?_, ?_, ?_, ?_⟩
      · rw [hcred]
        refine List.Nodup.append hcn (by simp) ?_
        intro x hx hx2
        simp at hx2
        subst hx2
        exact hnot (hcs _ hx)
      · rw [hcred]
        intro x hx
        rcases List.mem_append.mp hx with hx | hx
        · exact List.mem_cons_of_mem _ (hcs _ hx)
        · simp at hx
          subst hx
          exact List.mem_cons_self _ _
      · rw [hpay]; exact hpn
      · rw [hpay]; exact hps
  next htipo =>
    cases hm : findMatch tx.data tx.valor told tolv s.matched_pay payE with
    | none =>
      simp only [hm]
      have hc : credIds (s.items ++ [mkSoBanco tx]) = credIds s.items := by
        simp [credIds_append, credIds, mkSoBanco]
      have hp : payIds (s.items ++ [mkSoBanco tx]) = payIds s.items := by
        simp [payIds_append, payIds, mkSoBanco]
      refine ⟨?_, ?_, ?_, ?_⟩
      · show (credIds (s.items ++ [mkSoBanco tx])).Nodup
        rw [hc]; exact hcn
      · show ∀ x ∈ credIds (s.items ++ [mkSoBanco tx]), x ∈ s.matched_recv
        rw [hc]; exact hcs
      · show (payIds (s.items ++ [mkSoBanco tx])).Nodup
        rw [hp]; exact hpn
      · show ∀ x ∈ payIds (s.items ++ [mkSoBanco tx]), x ∈ s.matched_pay
        rw [hp]; exact hps
    | some r =>
      obtain ⟨i, item⟩ := r
      have hnot := findMatch_not_mem tx.data tx.valor told tolv
        s.matched_pay payE (i, item) hm
      simp only [hm]
      have hcred : credIds (s.items ++ [mkConciliado tx i item])
          = credIds s.items := by
        simp [credIds_append, credIds, mkConciliado, htipo]
      have hpay : payIds (s.items ++ [mkConciliado tx i item])
          = payIds s.items ++ [itemId i item] := by
        simp [payIds_append, payIds, mkConciliado, htipo]
      refine ⟨?_, ?_, ?_, ?_⟩
      · rw [hcred]; exact hcn
      · rw [hcred]; exact hcs
      · rw [hpay]
        refine List.Nodup.append hpn (by simp) ?_
        intro x hx hx2
        simp at hx2
        subst hx2
        exact hnot (hps _ hx)
      · rw [hpay]
        intro x hx
        rcases List.mem_append.mp hx with hx | hx
        · exact List.mem_cons_of_mem _ (hps _ hx)
        · simp at hx
          subst hx
          exact List.mem_cons_self _ _

theorem phase1_inv (ts : List InterTransaction)
    (recvE payE : List (Nat × ErpItem)) (told : Int) (tolv : Rat) :
    ∀ s : RecState, RecInv s →
      RecInv (ts.foldl (processTx recvE payE told tolv) s) := by
  induction ts with
  | nil => intro s h; simpa using h
  | cons tx rest ih =>
    intro s h
    simp only [List.foldl_cons]
    exact ih _ (processTx_inv recvE payE told tolv s tx h)

theorem credIds_soErpItems (ts : List InterTransaction) (told : Int)
    (matched : List String) (cs : List (Nat × ErpItem)) :
    credIds (soErpItems ts told matched cs) = [] := by
  induction cs with
  | nil => simp [soErpItems, credIds]
  | cons hd rest ih =>
    obtain ⟨i, item⟩ := hd
    unfold soErpItems
    split
    · exact ih
    · split
      · exact ih
      · simpa [credIds, mkSoErp] using ih

theorem payIds_soErpItems (ts : List InterTransaction) (told : Int)
    (matched : List String) (cs : List (Nat × ErpItem)) :
    payIds (soErpItems ts told matched cs) = [] := by
  induction cs with
  | nil => simp [soErpItems, payIds]
  | cons hd rest ih =>
    obtain ⟨i, item⟩ := hd
    unfold soErpItems
    split
    · exact ih
    · split
      · exact ih
      · simpa [payIds, mkSoErp] using ih

/-- Claim C2: for every input to `reconcile`, each paid obligation is
consumed at most once — across the CONCILIADO items, the recorded ERP
ids are pairwise distinct within the receivable side and within the
payable side. -/
theorem reconcile_matched_ids_nodup (ts : List InterTransaction)
    (receivables payables : List ErpItem) (told : Int) (tolv : Rat) :
    (credIds (reconcile ts receivables payables told tolv).items).Nodup
    ∧ (payIds (reconcile ts receivables payables told tolv).items).Nodup := by
  have hinv := phase1_inv ts (receivables.filter isPaid).enum
    (payables.filter isPaid).enum told tolv {}
    (by refine ⟨?_, ?_, ?_, ?_⟩ <;> simp [credIds, payIds])
  unfold reconcile
  simp only [credIds_append, payIds_append, credIds_soErpItems,
    payIds_soErpItems, List.append_nil]
  exact ⟨hinv.1, hinv.2.2.1⟩

/- ────────────────────────────────────────────────────────────────
   General list lemmas used by the proofs
   ──────────────────────────────────────────────────────────────── -/

theorem find?_append_of_some {α} (p : α → Bool) (l1 l2 : List α) (x : α)
    (h : l1.find? p = some x) : (l1 ++ l2).find? p = some x := by
  induction l1 with
  | nil => simp [List.find?] at h
  | cons a t ih =>
    by_cases hp : p a
    · rw [List.find?_cons_of_pos _ hp] at h
      rw [List.cons_append, List.find?_cons_of_pos _ hp]
      exact h
    · rw [List.find?_cons_of_neg _ hp] at h
      rw [List.cons_append, List.find?_cons_of_neg _ hp]
      exact ih h

theorem find?_append_of_none {α} (p : α → Bool) (l1 l2 : List α)
    (h : l1.find? p = none) : (l1 ++ l2).find? p = l2.find? p := by
  induction l1 with
  | nil => simp
  | cons a t ih =>
    by_cases hp : p a
    · rw [List.find?_cons_of_pos _ hp] at h
      exact absurd h (by simp)
    · rw [List.find?_cons_of_neg _ hp] at h
      rw [List.cons_append, List.find?_cons_of_neg _ hp]
      exact ih h

theorem foldl_range_succ {α : Type} (f : α → Nat → α) (init : α) (n : Nat) :
    (List.range (n + 1)).foldl f init = f ((List.range n).foldl f init) n := by
  rw [List.range_succ, List.foldl_append, List.foldl_cons, List.foldl_nil]

theorem filter_of_map {α β} (p : β → Bool) (f : α → β) (l : List α) :
    (l.map f).filter p = (l.filter (fun a => p (f a))).map f := by
  induction l with
  | nil => simp
  | cons a t ih =>
    by_cases hp : p (f a) <;> simp [List.filter_cons, hp, ih]

/- ────────────────────────────────────────────────────────────────
   Claim C1: tolerance monotonicity
   ──────────────────────────────────────────────────────────────── -/

/-- Weakening both tolerances preserves the existence of a match in a
single candidate scan (with the same consumed set). -/
theorem findMatch_mono (d : Int) (v : Rat) (told1 told2 : Int)
    (tolv1 tolv2 : Rat) (m : List String) (cs : List (Nat × ErpItem))
    (ht : told1 ≤ told2) (hv : tolv1 ≤ tolv2)
    (h : (findMatch d v told1 tolv1 m cs).isSome) :
    (findMatch d v told2 tolv2 m cs).isSome := by
  induction cs with
  | nil => simp [findMatch] at h
  | cons hd rest ih =>
    obtain ⟨j, it⟩ := hd
    by_cases hmem : itemId j it ∈ m
    · unfold findMatch at h ⊢
      rw [if_pos hmem] at h ⊢
      exact ih h
    · by_cases hval2 : tolv2 < ratAbs (paidAmount it - v)
      · have hval1 : tolv1 < ratAbs (paidAmount it - v) := lt_of_le_of_lt hv hval2
        unfold findMatch at h ⊢
        rw [if_neg hmem, if_pos hval2]
        rw [if_neg hmem, if_pos hval1] at h
        exact ih h
      · cases hpd : paidDate it with
        | none =>
          unfold findMatch
          rw [if_neg hmem, if_neg hval2]
          simp [hpd]
        | some dd =>
          by_cases hdd2 : told2 < intAbs (d - dd)
          · have hdd1 : told1 < intAbs (d - dd) := lt_of_le_of_lt ht hdd2
            unfold findMatch at h ⊢
            rw [if_neg hmem, if_neg hval2]
            simp only [hpd]
            rw [if_pos hdd2]
            rw [if_neg hmem] at h
            by_cases hval1 : tolv1 < ratAbs (paidAmount it - v)
            · rw [if_pos hval1] at h
              exact ih h
            · rw [if_neg hval1] at h
              simp only [hpd] at h
              rw [if_pos hdd1] at h
              exact ih h
          · unfold findMatch
            rw [if_neg hmem, if_neg hval2]
            simp only [hpd]
            rw [if_neg hdd2]
            simp

/-- Counterexample to claim C1 as stated: transactions
`t1 = (day 10, CREDITO, 100)` then `t2 = (day 0, CREDITO, 100)` against
paid receivables `O1 = (100, paid day 1)` then `O2 = (100, paid day 11)`.
With date tolerance 1 the matcher pairs `t1–O2` and `t2–O1`
(2 CONCILIADO); with the strictly larger date tolerance 9 (same value
tolerance) `t1` greedily consumes `O1` and `t2` is left unmatched
(1 CONCILIADO), so enlarging the tolerances decreases the matched
count. -/
theorem reconcile_tolerance_monotonic_cex :
    (1 : Int) ≤ 9 ∧ ((1 : Rat)/100) ≤ 1/100 ∧
    ¬ ((reconcile
          [⟨10, "CREDITO", "t1", 100⟩, ⟨0, "CREDITO", "t2", 100⟩]
          [{ id := some "O1", status := some "PAID", pago := some 100,
             data_pagamento := some 1 },
           { id := some "O2", status := some "PAID", pago := some 100,
             data_pagamento := some 11 }]
          [] 1 (1/100)).conciliados
        ≤ (reconcile
          [⟨10, "CREDITO", "t1", 100⟩, ⟨0, "CREDITO", "t2", 100⟩]
          [{ id := some "O1", status := some "PAID", pago := some 100,
             data_pagamento := some 1 },
           { id := some "O2", status := some "PAID", pago := some 100,
             data_pagamento := some 11 }]
          [] 9 (1/100)).conciliados) :=
  ⟨by decide, by decide, by decide⟩

/-- Claim C1 (amended): greedy first-match reconciliation is
tolerance-monotonic for inputs with a single bank transaction — with at
most one transaction no candidate can be stolen, so enlarging
`value_tolerance` and `date_tolerance_days` never decreases the
CONCILIADO count.  (With two or more transactions the claim fails, see
the counterexample.) -/
theorem reconcile_single_tx_tolerance_mono (tx : InterTransaction)
    (receivables payables : List ErpItem) (told1 told2 : Int)
    (tolv1 tolv2 : Rat) (ht : told1 ≤ told2) (hv : tolv1 ≤ tolv2) :
    (reconcile [tx] receivables payables told1 tolv1).conciliados
      ≤ (reconcile [tx] receivables payables told2 tolv2).conciliados := by
  unfold reconcile phase1
  simp only [List.foldl_cons, List.foldl_nil]
  unfold processTx
  by_cases htipo : tx.tipo = "CREDITO"
  · rw [if_pos htipo, if_pos htipo]
    cases hm1 : findMatch tx.data tx.valor told1 tolv1
        ({} : RecState).matched_recv (receivables.filter isPaid).enum with
    | none =>
      cases hm2 : findMatch tx.data tx.valor told2 tolv2
          ({} : RecState).matched_recv (receivables.filter isPaid).enum with
      | none => simp
      | some r2 => obtain ⟨i2, it2⟩ := r2; simp
    | some r1 =>
      have h2 := findMatch_mono tx.data tx.valor told1 told2 tolv1 tolv2
        ({} : RecState).matched_recv (receivables.filter isPaid).enum ht hv
        (by rw [hm1]; rfl)
      cases hm2 : findMatch tx.data tx.valor told2 tolv2
          ({} : RecState).matched_recv (receivables.filter isPaid).enum with
      | none => rw [hm2] at h2; simp at h2
      | some r2 =>
        obtain ⟨i1, it1⟩ := r1
        obtain ⟨i2, it2⟩ := r2
        simp
  · rw [if_neg htipo, if_neg htipo]
    cases hm1 : findMatch tx.data tx.valor told1 tolv1
        ({} : RecState).matched_pay (payables.filter isPaid).enum with
    | none =>
      cases hm2 : findMatch tx.data tx.valor told2 tolv2
          ({} : RecState).matched_pay (payables.filter isPaid).enum with
      | none => simp
      | some r2 => obtain ⟨i2, it2⟩ := r2; simp
    | some r1 =>
      have h2 := findMatch_mono tx.data tx.valor told1 told2 tolv1 tolv2
        ({} : RecState).matched_pay (payables.filter isPaid).enum ht hv
        (by rw [hm1]; rfl)
      cases hm2 : findMatch tx.data tx.valor told2 tolv2
          ({} : RecState).matched_pay (payables.filter isPaid).enum with
      | none => rw [hm2] at h2; simp at h2
      | some r2 =>
        obtain ⟨i1, it1⟩ := r1
        obtain ⟨i2, it2⟩ := r2
        simp

/-- Witness for the amended claim C1 at a concrete input. -/
theorem reconcile_single_tx_tolerance_mono_witness :
    ((1 : Int) ≤ 3 ∧ ((1 : Rat)/100) ≤ 1/100) ∧
    (reconcile [⟨0, "CREDITO", "t", 50⟩]
        [{ id := some "O", status := some "PAID", pago := some 50,
           data_pagamento := some 0 }] [] 1 (1/100)).conciliados
      ≤ (reconcile [⟨0, "CREDITO", "t", 50⟩]
        [{ id := some "O", status := some "PAID", pago := some 50,
           data_pagamento := some 0 }] [] 3 (1/100)).conciliados :=
  ⟨⟨by decide, by decide⟩,
    reconcile_single_tx_tolerance_mono _ _ _ _ _ _ _ (by decide) (by decide)⟩

/- ────────────────────────────────────────────────────────────────
   Claim C3: each transaction yields exactly one CONCILIADO or
   SO_BANCO item
   ──────────────────────────────────────────────────────────────── -/

theorem processTx_conc_so (recvE payE : List (Nat × ErpItem)) (told : Int)
    (tolv : Rat) (s : RecState) (tx : InterTransaction) :
    (processTx recvE payE told tolv s tx).conciliados
        + (processTx recvE payE told tolv s tx).so_banco
      = s.conciliados + s.so_banco + 1 := by
  unfold processTx
  split <;> (split <;> simp <;> omega)

theorem processTx_items_count (recvE payE : List (Nat × ErpItem)) (told : Int)
    (tolv : Rat) (s : RecState) (tx : InterTransaction) :
    ((processTx recvE payE told tolv s tx).items.countP isBankItem)
      = s.items.countP isBankItem + 1 := by
  unfold processTx
  split <;> (split <;> simp [List.countP_append, mkConciliado, mkSoBanco, isBankItem, List.countP_cons])

theorem phase1_conc_so (ts : List InterTransaction)
    (recvE payE : List (Nat × ErpItem)) (told : Int) (tolv : Rat) :
    ∀ s : RecState,
      (ts.foldl (processTx recvE payE told tolv) s).conciliados
          + (ts.foldl (processTx recvE payE told tolv) s).so_banco
        = s.conciliados + s.so_banco + ts.length := by
  induction ts with
  | nil => intro s; simp
  | cons tx rest ih =>
    intro s
    simp only [List.foldl_cons, List.length_cons]
    rw [ih]
    have h := processTx_conc_so recvE payE told tolv s tx
    omega

theorem phase1_items_count (ts : List InterTransaction)
    (recvE payE : List (Nat × ErpItem)) (told : Int) (tolv : Rat) :
    ∀ s : RecState,
      ((ts.foldl (processTx recvE payE told tolv) s).items.countP isBankItem)
        = s.items.countP isBankItem + ts.length := by
  induction ts with
  | nil => intro s; simp
  | cons tx rest ih =>
    intro s
    simp only [List.foldl_cons, List.length_cons]
    rw [ih]
    have h := processTx_items_count recvE payE told tolv s tx
    omega

theorem soErpItems_count (ts : List InterTransaction) (told : Int)
    (matched : List String) (cs : List (Nat × ErpItem)) :
    ((soErpItems ts told matched cs).countP isBankItem) = 0 := by
  induction cs with
  | nil => simp [soErpItems]
  | cons hd rest ih =>
    obtain ⟨i, item⟩ := hd
    unfold soErpItems
    split
    · exact ih
    · split
      · exact ih
      · simp [List.countP_cons, isBankItem, mkSoErp, ih]

/-- Claim C3: for every input to `reconcile`, every bank transaction
yields exactly one item that is either CONCILIADO or SO_BANCO, so
`conciliados + so_banco` equals the number of transactions, and the
items list holds exactly that many CONCILIADO/SO_BANCO entries. -/
theorem reconcile_partitions_transactions (ts : List InterTransaction)
    (receivables payables : List ErpItem) (told : Int) (tolv : Rat) :
    (reconcile ts receivables payables told tolv).conciliados
        + (reconcile ts receivables payables told tolv).so_banco = ts.length
    ∧ ((reconcile ts receivables payables told tolv).items.countP isBankItem)
        = ts.length := by
  unfold reconcile
  simp only []
  constructor
  · have h := phase1_conc_so ts (receivables.filter isPaid).enum
      (payables.filter isPaid).enum told tolv {}
    simpa [phase1] using h
  · rw [List.countP_append, List.countP_append]
    have h1 := phase1_items_count ts (receivables.filter isPaid).enum
      (payables.filter isPaid).enum told tolv {}
    have h2 := soErpItems_count ts told
      (phase1 ts (receivables.filter isPaid).enum (payables.filter isPaid).enum told tolv).matched_recv
      (receivables.filter isPaid).enum
    have h3 := soErpItems_count ts told
      (phase1 ts (receivables.filter isPaid).enum (payables.filter isPaid).enum told tolv).matched_pay
      (payables.filter isPaid).enum
    simp only [phase1, List.countP_nil] at h1 h2 h3 ⊢
    omega

/- ────────────────────────────────────────────────────────────────
   Claims C5 and C6: the projection loop
   ──────────────────────────────────────────────────────────────── -/

theorem projFold_balance (inflow outflow : Int → Rat) (today : Int)
    (cash : Rat) :
    ∀ n : Nat,
      ((List.range n).foldl (projStep inflow outflow today)
          (projInit cash today)).balance
        = balanceAfter cash inflow outflow today n := by
  intro n
  induction n with
  | zero => simp [projInit, balanceAfter]
  | succ n ih =>
    rw [foldl_range_succ]
    simp only [projStep]
    rw [ih]
    simp [balanceAfter, List.range_succ]
    ring

theorem projFold_dun (inflow outflow : Int → Rat) (today : Int)
    (cash : Rat) :
    ∀ n : Nat,
      ((List.range n).foldl (projStep inflow outflow today)
          (projInit cash today)).days_until_negative
        = (List.range n).find?
            (fun i => decide (balanceAfter cash inflow outflow today (i + 1) < 0)) := by
  intro n
  induction n with
  | zero => simp [projInit]
  | succ n ih =>
    rw [foldl_range_succ]
    simp only [projStep]
    have hb : ((List.range n).foldl (projStep inflow outflow today)
          (projInit cash today)).balance
          + inflow (today + (n : Int)) - outflow (today + (n : Int))
        = balanceAfter cash inflow outflow today (n + 1) := by
      rw [projFold_balance]
      simp [balanceAfter, List.range_succ]
      ring
    rw [hb, ih, List.range_succ]
    cases hfind : (List.range n).find?
        (fun i => decide (balanceAfter cash inflow outflow today (i + 1) < 0)) with
    | some k =>
      rw [find?_append_of_some _ _ _ _ hfind]
      simp
    | none =>
      rw [find?_append_of_none _ _ _ hfind]
      by_cases hneg : balanceAfter cash inflow outflow today (n + 1) < 0
      · rw [List.find?_cons_of_pos _ (by simpa using hneg)]
        simp [hneg]
      · rw [List.find?_cons_of_neg _ (by simpa using hneg)]
        simp [hneg]

theorem projFold_b30 (inflow outflow : Int → Rat) (today : Int)
    (cash : Rat) :
    ∀ n : Nat,
      ((List.range n).foldl (projStep inflow outflow today)
          (projInit cash today)).balance_30d
        = if 31 ≤ n then balanceAfter cash inflow outflow today 31 else cash := by
  intro n
  induction n with
  | zero => simp [projInit]
  | succ n ih =>
    rw [foldl_range_succ]
    simp only [projStep]
    by_cases h30 : n = 30
    · subst h30
      rw [if_pos rfl, if_pos (by omega : 31 ≤ 30 + 1)]
      rw [projFold_balance]
      rw [show (31 : Nat) = 30 + 1 from rfl]
      simp [balanceAfter, List.range_succ]
      ring
    · rw [if_neg h30, ih]
      by_cases h31 : 31 ≤ n
      · rw [if_pos h31, if_pos (by omega : 31 ≤ n + 1)]
      · rw [if_neg h31, if_neg (by omega : ¬ 31 ≤ n + 1)]

theorem projFold_b60 (inflow outflow : Int → Rat) (today : Int)
    (cash : Rat) :
    ∀ n : Nat,
      ((List.range n).foldl (projStep inflow outflow today)
          (projInit cash today)).balance_60d
        = if 61 ≤ n then balanceAfter cash inflow outflow today 61 else cash := by
  intro n
  induction n with
  | zero => simp [projInit]
  | succ n ih =>
    rw [foldl_range_succ]
    simp only [projStep]
    by_cases h60 : n = 60
    · subst h60
      rw [if_pos rfl, if_pos (by omega : 61 ≤ 60 + 1)]
      rw [projFold_balance]
      rw [show (61 : Nat) = 60 + 1 from rfl]
      simp [balanceAfter, List.range_succ]
      ring
    · rw [if_neg h60, ih]
      by_cases h61 : 61 ≤ n
      · rw [if_pos h61, if_pos (by omega : 61 ≤ n + 1)]
      · rw [if_neg h61, if_neg (by omega : ¬ 61 ≤ n + 1)]

/-- Counterexample to claim C5 as stated: with a 0-day horizon the
result still carries both snapshot fields — they are not undefined or
omitted, but hold the pre-simulation `current_cash` (5, and 7 when the
cash changes), even though the only simulated balance is 15. -/
theorem build_cash_projection_snapshot_cex :
    (build_cash_projection 5
        [{ nao_pago := some 10, data_vencimento := some 0 }] [] 0 0).balance_30d = 5
    ∧ (build_cash_projection 5
        [{ nao_pago := some 10, data_vencimento := some 0 }] [] 0 0).balance_60d = 5
    ∧ (build_cash_projection 5
        [{ nao_pago := some 10, data_vencimento := some 0 }] [] 0 0).daily = [(0, 15)]
    ∧ (build_cash_projection 7
        [{ nao_pago := some 10, data_vencimento := some 0 }] [] 0 0).balance_30d = 7 :=
  ⟨by decide, by decide, by decide, by decide⟩

/-- Claim C5 (amended): the snapshots are taken exactly at simulation
steps `i = 30` and `i = 60` (the field then equals the running balance
after step 30, resp. 60); when the horizon is shorter the loop never
reaches that step and the field instead retains its initialization
value `current_cash` — it is returned, not omitted. -/
theorem build_cash_projection_snapshots (cash : Rat)
    (receivables payables : List CashItem) (days : Nat) (today : Int) :
    (build_cash_projection cash receivables payables days today).balance_30d
      = (if 30 ≤ days
          then balanceAfter cash (dailyFlow today receivables)
            (dailyFlow today payables) today 31
          else cash)
    ∧ (build_cash_projection cash receivables payables days today).balance_60d
      = (if 60 ≤ days
          then balanceAfter cash (dailyFlow today receivables)
            (dailyFlow today payables) today 61
          else cash) := by
  simp only [build_cash_projection]
  constructor
  · rw [projFold_b30]
    by_cases h : 30 ≤ days
    · rw [if_pos (by omega : 31 ≤ days + 1), if_pos h]
    · rw [if_neg (by omega : ¬ 31 ≤ days + 1), if_neg h]
  · rw [projFold_b60]
    by_cases h : 60 ≤ days
    · rw [if_pos (by omega : 61 ≤ days + 1), if_pos h]
    · rw [if_neg (by omega : ¬ 61 ≤ days + 1), if_neg h]

/-- Claim C6: `days_until_negative` equals the first simulation day
index whose running balance is below 0 (`none` when the balance never
goes negative); as the first such index it can never be overwritten by
a later recovery. -/
theorem build_cash_projection_first_negative (cash : Rat)
    (receivables payables : List CashItem) (days : Nat) (today : Int) :
    (build_cash_projection cash receivables payables days today).days_until_negative
      = (List.range (days + 1)).find?
          (fun i => decide (balanceAfter cash (dailyFlow today receivables)
            (dailyFlow today payables) today (i + 1) < 0)) := by
  simp only [build_cash_projection]
  rw [projFold_dun]

/- ────────────────────────────────────────────────────────────────
   Claim C7: burn-rate averaging
   ──────────────────────────────────────────────────────────────── -/

theorem activeMonthsList_eq (payables : List BurnItem) (months : Nat)
    (m0 : Int) :
    activeMonthsList payables months m0
      = if activePastMonths payables months m0 = []
        then (activeAllMonths payables months m0).map
          (fun mk => (mk, monthlyTotal payables mk))
        else (activePastMonths payables months m0).map
          (fun mk => (mk, monthlyTotal payables mk)) := by
  simp only [activeMonthsList]
  have hactive :
      (((monthKeys months m0).map
          (fun mk => (mk, monthlyTotal payables mk))).filter
        (fun p => decide (0 < p.2) && decide (p.1 ≠ m0)))
        = (activePastMonths payables months m0).map
            (fun mk => (mk, monthlyTotal payables mk)) := by
    rw [filter_of_map]
    rfl
  have hall :
      (((monthKeys months m0).map
          (fun mk => (mk, monthlyTotal payables mk))).filter
        (fun p => decide (0 < p.2)))
        = (activeAllMonths payables months m0).map
            (fun mk => (mk, monthlyTotal payables mk)) := by
    rw [filter_of_map]
    rfl
  rw [hactive, hall]
  cases h : activePastMonths payables months m0 with
  | nil => simp
  | cons a t => simp

/-- Claim C7: `calculate_burn_rate` averages the monthly paid totals
over the trailing window excluding the current month, dividing by the
number of months with non-zero spend (not by N); when no past window
month has spend, the current month is included as a fallback. -/
theorem calculate_burn_rate_spec (payables : List BurnItem) (months : Nat)
    (m0 : Int) :
    (activePastMonths payables months m0 ≠ [] →
      calculate_burn_rate payables months m0
        = { monthly_average :=
              ((activePastMonths payables months m0).map
                (monthlyTotal payables)).sum
                / ((activePastMonths payables months m0).length : Rat)
            months_used := (activePastMonths payables months m0).length })
    ∧ (activePastMonths payables months m0 = [] →
      calculate_burn_rate payables months m0
        = { monthly_average :=
              ((activeAllMonths payables months m0).map
                (monthlyTotal payables)).sum
                / ((max (activeAllMonths payables months m0).length 1 : Nat) : Rat)
            months_used := max (activeAllMonths payables months m0).length 1 }) := by
  constructor
  · intro hne
    unfold calculate_burn_rate
    rw [activeMonthsList_eq, if_neg hne]
    have hmax : max (activePastMonths payables months m0).length 1
        = (activePastMonths payables months m0).length :=
      max_eq_left (List.length_pos.mpr hne)
    simp [List.map_map, Function.comp_def, hmax]
  · intro hnil
    unfold calculate_burn_rate
    rw [activeMonthsList_eq, if_pos hnil]
    simp [List.map_map, Function.comp_def]

/-- Witness for claim C7: past-month totals 1000 (one month back), 0
(two months back), 2000 (three months back) in a 4-month window around
current month 0 average to 1500 over the 2 non-zero past months. -/
theorem calculate_burn_rate_spec_witness :
    activePastMonths
        [{ pago := some 1000, data_competencia := some (some (-1)) },
         { pago := some 2000, data_competencia := some (some (-3)) }] 4 0 ≠ []
    ∧ (calculate_burn_rate
        [{ pago := some 1000, data_competencia := some (some (-1)) },
         { pago := some 2000, data_competencia := some (some (-3)) }] 4 0).monthly_average
        = 1500
    ∧ (calculate_burn_rate
        [{ pago := some 1000, data_competencia := some (some (-1)) },
         { pago := some 2000, data_competencia := some (some (-3)) }] 4 0).months_used
        = 2 := by
  have h := (calculate_burn_rate_spec
    [{ pago := some 1000, data_competencia := some (some (-1)) },
     { pago := some 2000, data_competencia := some (some (-3)) }] 4 0).1 (by decide)
  refine ⟨by decide, ?_, ?_⟩
  · rw [h]; decide
  · rw [h]; decide

/- ────────────────────────────────────────────────────────────────
   Claim C8: aging buckets
   ──────────────────────────────────────────────────────────────── -/

/-- Claim C8: the aging classifier returns Vencido (OVERDUE) for
missing/unparsable due dates and for negative `days_diff`; 0-30d for
`0 ≤ days_diff ≤ 30`; 31-60d for `31 ≤ days_diff ≤ 60`; 60+d for
`days_diff > 60`. -/
theorem classify_aging_bucket_spec (due : Option Int) (ref : Int) :
    (due = none → classify_aging_bucket due ref = "Vencido")
    ∧ (∀ d : Int, due = some d →
        ((d - ref < 0 → classify_aging_bucket due ref = "Vencido")
        ∧ (0 ≤ d - ref → d - ref ≤ 30 → classify_aging_bucket due ref = "0-30d")
        ∧ (31 ≤ d - ref → d - ref ≤ 60 → classify_aging_bucket due ref = "31-60d")
        ∧ (60 < d - ref → classify_aging_bucket due ref = "60+d"))) := by
  constructor
  · intro h; subst h; rfl
  · intro d h
    subst h
    simp only [classify_aging_bucket]
    refine ⟨?_, ?_, ?_, ?_⟩
    · intro h1
      rw [if_pos h1]
    · intro h1 h2
      rw [if_neg (by omega), if_pos h2]
    · intro h1 h2
      rw [if_neg (by omega), if_neg (by omega), if_pos h2]
    · intro h1
      rw [if_neg (by omega), if_neg (by omega), if_neg (by omega)]

/-- Witness for claim C8 at a concrete input (due in 45 days). -/
theorem classify_aging_bucket_spec_witness :
    ((31 : Int) ≤ 45 - 0 ∧ (45 : Int) - 0 ≤ 60)
    ∧ classify_aging_bucket (some 45) 0 = "31-60d" :=
  ⟨⟨by decide, by decide⟩,
    ((classify_aging_bucket_spec (some 45) 0).2 45 rfl).2.2.1 (by decide) (by decide)⟩

/- ────────────────────────────────────────────────────────────────
   Claim C9: match rate
   ──────────────────────────────────────────────────────────────── -/

/-- Claim C9: the match rate is `conciliados / total × 100` when there
are bank transactions and exactly 100 when there are none — a defined
sentinel, never a division-by-zero failure. -/
theorem taxa_conciliacao_spec (r : ReconciliationResult) :
    (r.total_transacoes_banco = 0 → taxa_conciliacao r = 100)
    ∧ (r.total_transacoes_banco ≠ 0 →
        taxa_conciliacao r
          = ((r.conciliados : Rat) / (r.total_transacoes_banco : Rat)) * 100) := by
  constructor
  · intro h
    simp [taxa_conciliacao, h]
  · intro h
    simp [taxa_conciliacao, h]

/-- Witness for claim C9: zero bank transactions give 100%; 1 matched
out of 4 gives 25%. -/
theorem taxa_conciliacao_spec_witness :
    taxa_conciliacao { total_transacoes_banco := 0, conciliados := 7 } = 100
    ∧ taxa_conciliacao { total_transacoes_banco := 4, conciliados := 1 } = 25 := by
  constructor
  · exact (taxa_conciliacao_spec _).1 rfl
  · rw [(taxa_conciliacao_spec
      { total_transacoes_banco := 4, conciliados := 1 }).2 (by decide)]
    decide

/- ────────────────────────────────────────────────────────────────
   Claim C10: runway
   ──────────────────────────────────────────────────────────────── -/

/-- Claim C10: for positive burn rate the runway is
`max(cash / burn_rate, 0)` months and not infinite; in particular a
negative cash yields 0 months, never a negative runway. -/
theorem calculate_runway_spec (cash burn_rate : Rat) (h : 0 < burn_rate) :
    calculate_runway cash burn_rate
        = { months := some (max (cash / burn_rate) 0), is_infinite := false }
    ∧ (cash < 0 → (calculate_runway cash burn_rate).months = some 0) := by
  have hn : ¬ burn_rate ≤ 0 := not_le.mpr h
  constructor
  · unfold calculate_runway
    rw [if_neg hn]
  · intro hc
    unfold calculate_runway
    rw [if_neg hn]
    show some (max (cash / burn_rate) 0) = some 0
    rw [max_eq_right (le_of_lt (div_neg_of_neg_of_pos hc h))]

/-- Witness for claim C10: cash −5 at burn rate 2 gives 0 months of
runway. -/
theorem calculate_runway_spec_witness :
    ((0 : Rat) < 2 ∧ (-5 : Rat) < 0)
    ∧ (calculate_runway (-5) 2).months = some 0 :=
  ⟨⟨by decide, by decide⟩,
    (calculate_runway_spec (-5) 2 (by decide)).2 (by decide)⟩
